import Mathlib

/-
Verification of the real-time chat backend (message app).

Shallow embedding of:
  - src/message/chat/consumers.py   (ChatConsumer, GroupChatConsumer)
  - src/message/chat/models.py      (ChatMessage tombstone delete)
  - src/message/groups/consumers.py (GroupChatConsumer: connect/receive branches)
  - src/message/groups/models.py    (Group.save admin hook, GroupMessage)
  - src/message/groups/views.py     (membership/admin/ownership views, delete view)

Users are modelled by their numeric ids.  Database tables are modelled as
Lists of records; Django object creation appends to the list, row deletion
filters the list, row update maps over the list.  Raised exceptions that the
consumer catches and reports are modelled as Except errors whose text is the
message the handler sends back.  Timestamps are irrelevant to every claim and
are carried as the optional client-supplied string only.
-/

namespace Backend

/-- A persisted row of chat.models.Message (the model used by
ChatConsumer.save_encrypted_message and GroupChatConsumer.save_group_message
in src/message/chat/consumers.py).  The field mtype stands for the column
named type, which is a reserved word in Lean. -/
structure Message where
  message_id : String
  sender : Nat
  receiver : Option Nat
  content : String
  nonce : String
  ephemeral_key : String
  message_key : String
  mtype : String
deriving DecidableEq, Repr

/-- Python falsy test for an optional string field obtained by data.get:
None (key absent or null) and the empty string are falsy. -/
def is_blank : Option String → Bool
  | none => true
  | some s => s.isEmpty

/-- ChatConsumer.save_encrypted_message (src/message/chat/consumers.py,
lines 245-260): raises ValueError when a row with this message_id already
exists, otherwise creates the row with the or-empty defaults for the
optional crypto fields. -/
def save_encrypted_message (store : List Message) (sender_id receiver_id : Nat)
    (encrypted_message : String) (nonce ephemeral_key message_key : Option String)
    (message_id : String) (message_type : String) : Except String (List Message) :=
  if store.any (fun m => m.message_id == message_id) then
    .error "message_id must be unique"
  else
    .ok (store ++ [⟨message_id, sender_id, some receiver_id, encrypted_message,
      nonce.getD "", ephemeral_key.getD "", message_key.getD "", message_type⟩])

/-- GroupChatConsumer.save_group_message (src/message/chat/consumers.py,
lines 589-604): same uniqueness check; the row is stored with receiver None
(the group id is not recorded on the Message row). -/
def save_group_message (store : List Message) (sender_id : Nat)
    (encrypted_message : String) (nonce ephemeral_key message_key : Option String)
    (message_id : String) (message_type : String) : Except String (List Message) :=
  if store.any (fun m => m.message_id == message_id) then
    .error "message_id must be unique"
  else
    .ok (store ++ [⟨message_id, sender_id, none, encrypted_message,
      nonce.getD "", ephemeral_key.getD "", message_key.getD "", message_type⟩])

/-- An inbound create-message frame, restricted to the branch of
ChatConsumer.receive entered when the key message is present in the parsed
JSON.  The field message holds the value of that key (possibly empty);
the optional fields model data.get on keys that may be absent. -/
structure ChatFrame where
  message : String
  nonce : Option String
  ephemeral_key : Option String
  message_key : Option String
  ftype : Option String
  message_id : Option String
  timestamp : Option String
deriving DecidableEq, Repr

/-- The payload handed to channel_layer.group_send by the text-message arm of
ChatConsumer.receive (src/message/chat/consumers.py, lines 116-130). -/
structure ChatEvent where
  message : String
  nonce : Option String
  ephemeral_key : Option String
  message_key : Option String
  sender : Nat
  receiver : Nat
  message_type : String
  message_id : String
  timestamp : Option String
deriving DecidableEq, Repr

/-- What a receive call emits: an error frame json-sent only to the
originating socket, or a broadcast to the room channel. -/
inductive ChatSend where
  | errorFrame (text : String)
  | broadcast (ev : ChatEvent)
deriving DecidableEq, Repr

/-- Result of one receive call: the message table afterwards and the frames
sent, in order. -/
structure ChatRecvResult where
  store : List Message
  sent : List ChatSend
deriving DecidableEq, Repr

/-- The message branch of ChatConsumer.receive (src/message/chat/consumers.py,
lines 86-130), including the surrounding try/except that turns the ValueError
raised by save_encrypted_message into an error frame sent to the caller.
users is the User table (ids); the receiver-existence check models
get_user_by_id returning None. -/
def chat_receive_message (users : List Nat) (sender_id receiver_id : Nat)
    (store : List Message) (f : ChatFrame) : ChatRecvResult :=
  if f.message.isEmpty then
    ⟨store, [.errorFrame "Message cannot be empty"]⟩
  else if is_blank f.message_id then
    ⟨store, [.errorFrame "message_id is required"]⟩
  else if receiver_id ∈ users then
    match save_encrypted_message store sender_id receiver_id f.message
        f.nonce f.ephemeral_key f.message_key (f.message_id.getD "")
        (f.ftype.getD "text") with
    | .error e => ⟨store, [.errorFrame e]⟩
    | .ok store2 =>
        ⟨store2, [.broadcast ⟨f.message, f.nonce, f.ephemeral_key, f.message_key,
          sender_id, receiver_id, f.ftype.getD "text", f.message_id.getD "",
          f.timestamp⟩]⟩
  else
    ⟨store, [.errorFrame "User does not exist"]⟩

/-- The broadcast payload of the message arm of GroupChatConsumer.receive in
src/message/chat/consumers.py (lines 474-488). -/
structure GroupChatEvent where
  message : String
  nonce : Option String
  ephemeral_key : Option String
  message_key : Option String
  sender : Nat
  group_id : Nat
  message_type : String
  message_id : String
  timestamp : Option String
deriving DecidableEq, Repr

/-- Frames emitted by the chat-file group consumer. -/
inductive GroupChatSend where
  | errorFrame (text : String)
  | broadcast (ev : GroupChatEvent)
deriving DecidableEq, Repr

/-- Result of one GroupChatConsumer.receive call (chat file). -/
structure GroupChatRecvResult where
  store : List Message
  sent : List GroupChatSend
deriving DecidableEq, Repr

/-- The message branch of GroupChatConsumer.receive in
src/message/chat/consumers.py (lines 449-488): the same two validations as
the direct consumer (no receiver-existence check), then save_group_message
and a broadcast to the group room. -/
def group_chat_receive_message (user_id group_id : Nat)
    (store : List Message) (f : ChatFrame) : GroupChatRecvResult :=
  if f.message.isEmpty then
    ⟨store, [.errorFrame "Message cannot be empty"]⟩
  else if is_blank f.message_id then
    ⟨store, [.errorFrame "message_id is required"]⟩
  else
    match save_group_message store user_id f.message
        f.nonce f.ephemeral_key f.message_key (f.message_id.getD "")
        (f.ftype.getD "text") with
    | .error e => ⟨store, [.errorFrame e]⟩
    | .ok store2 =>
        ⟨store2, [.broadcast ⟨f.message, f.nonce, f.ephemeral_key, f.message_key,
          user_id, group_id, f.ftype.getD "text", f.message_id.getD "",
          f.timestamp⟩]⟩

/-- Room name computed by ChatConsumer.connect
(src/message/chat/consumers.py, line 54). -/
def room_group_name (sender_id receiver_id : Nat) : String :=
  "chat_" ++ toString (min sender_id receiver_id) ++ "_" ++
    toString (max sender_id receiver_id)

/-- Outcome of a token check during ChatConsumer.connect: the token query
parameter is absent, JWT authentication raised AuthenticationFailed, or it
resolved to a user with the given id. -/
inductive TokenResult where
  | missing
  | authFailed
  | valid (user_id : Nat)
deriving DecidableEq, Repr

/-- Outcome of connection establishment: close with a code, or accept having
subscribed the listed channels. -/
inductive ConnectOutcome where
  | close (code : Nat)
  | accept (channels : List String)
deriving DecidableEq, Repr

/-- ChatConsumer.connect (src/message/chat/consumers.py, lines 22-57).
ids is the parse of the two route parameters (none when int() raised
ValueError); then the token is checked and the resolved user id is compared
to the sender route parameter. -/
def chat_connect (ids : Option (Nat × Nat)) (tok : TokenResult) : ConnectOutcome :=
  match ids with
  | none => .close 1000
  | some (s, r) =>
    match tok with
    | .missing => .close 1008
    | .authFailed => .close 1008
    | .valid uid => if uid ≠ s then .close 1008 else .accept [room_group_name s r]

/-- A group conversation row (src/message/groups/models.py, Group): creator
is the owner, admins and members are the two many-to-many sets. -/
structure Group where
  id : Nat
  name : String
  creator : Nat
  admins : List Nat
  members : List Nat
deriving DecidableEq, Repr

/-- One character of the class of the pattern used by
GroupChatConsumer._is_valid_group_name. -/
def is_valid_char (c : Char) : Bool :=
  c.isAlphanum || c = '-' || c = '_' || c = '.'

/-- GroupChatConsumer._is_valid_group_name (src/message/groups/consumers.py,
lines 97-103): a string shorter than 100 characters matching the anchored
character-class pattern, which requires at least one character. -/
def is_valid_group_name (name : String) : Bool :=
  name.length < 100 && !name.data.isEmpty && name.data.all is_valid_char

/-- Outcome of the token check during the groups-app
GroupChatConsumer.connect: token absent, TokenError, the user row missing,
or a resolved user (is_authenticated is always true for a real row but the
code branches on it, so it is kept). -/
inductive GroupTokenResult where
  | missing
  | tokenError
  | userNotFound
  | valid (user_id : Nat) (is_authenticated : Bool)
deriving DecidableEq, Repr

/-- GroupChatConsumer.connect of the groups app
(src/message/groups/consumers.py, lines 22-92).  With a url group id the
membership of the connecting user is checked; without one the consumer joins
a channel per membership (an empty membership list is accepted with only an
info frame, modelled as accepting no channels). -/
def groups_connect (tok : GroupTokenResult) (url_group_id : Option Nat)
    (groups : List Group) : ConnectOutcome :=
  match tok with
  | .missing => .close 4001
  | .tokenError => .close 4003
  | .userNotFound => .close 4003
  | .valid uid is_auth =>
    if !is_auth then .close 4002
    else
      match url_group_id with
      | some gid =>
        if groups.any (fun g => g.id == gid && g.members.contains uid) then
          if is_valid_group_name ("group_" ++ toString gid) then
            .accept ["group_" ++ toString gid]
          else .close 4006
        else .close 4004
      | none =>
        let user_groups := groups.filter (fun g => g.members.contains uid)
        if user_groups.isEmpty then .accept []
        else .accept ((user_groups.map (fun g => "group_" ++ toString g.id)).filter
          is_valid_group_name)

/-- Concrete create-message frame used by the C1 counterexample. -/
def c1_frame : ChatFrame := ⟨"hello", none, none, none, none, some "c1", none⟩

/-- A persisted row of groups.models.GroupMessage: sender None denotes a
system message; reactions is the JSON mapping from acting user id to
reaction symbol, kept as an association list in field order. -/
structure GroupMessage where
  id : Nat
  group_id : Nat
  sender : Option Nat
  message : String
  reactions : List (Nat × String)
  is_pinned : Bool
  read_by : List Nat
  parent : Option Nat
deriving DecidableEq, Repr

/-- Group.save (src/message/groups/models.py, lines 25-28): after the row is
saved, the creator is added to the admins set when not already in it. -/
def group_save (g : Group) : Group :=
  if g.creator ∈ g.admins then g else { g with admins := g.admins ++ [g.creator] }

/-- Error responses the group views return (403, 400, 404). -/
inductive ApiError where
  | forbidden (text : String)
  | badRequest (text : String)
  | notFound (text : String)
deriving DecidableEq, Repr

/-- Events the group views and the groups-app consumer publish to the
group channel via channel_layer.group_send. -/
inductive GroupBroadcast where
  | group_message_ev (m : GroupMessage)
  | group_updated_ev (g : Group)
  | group_message_deleted_ev (message_id : Nat)
  | group_deleted_ev (group_id : Nat)
deriving DecidableEq, Repr

/-- AddMemberToGroupView.post (src/message/groups/views.py, lines 304-342).
The system message text interpolates ids where the source uses first names,
since users are modelled by id. -/
def add_member_view (actor : Nat) (g : Group) (target : Nat) (next_id : Nat) :
    Except ApiError (Group × GroupMessage × List GroupBroadcast) :=
  if actor ∉ g.admins then .error (.forbidden "Only admins can add members")
  else if target ∈ g.members then
    .error (.badRequest "User is already a member of the group")
  else
    let g2 := group_save { g with members := g.members ++ [target] }
    let sys : GroupMessage := ⟨next_id, g.id, none,
      "System Helper: " ++ toString target ++ " was added to the group by " ++
        toString actor, [], false, [], none⟩
    .ok (g2, sys, [.group_message_ev sys, .group_updated_ev g2])

/-- RemoveMemberFromGroupView.post (src/message/groups/views.py,
lines 356-399). -/
def remove_member_view (actor : Nat) (g : Group) (target : Nat) (next_id : Nat) :
    Except ApiError (Group × GroupMessage × List GroupBroadcast) :=
  if actor ∉ g.admins then .error (.forbidden "Only admins can remove members")
  else if target ∉ g.members then
    .error (.badRequest "User is not a member of the group")
  else if target = g.creator then
    .error (.badRequest "Cannot remove the group owner")
  else
    let g2 := group_save { g with
      members := g.members.filter (fun x => x != target),
      admins := g.admins.filter (fun x => x != target) }
    let sys : GroupMessage := ⟨next_id, g.id, none,
      "System Helper: " ++ toString target ++ " was removed from the group by " ++
        toString actor, [], false, [], none⟩
    .ok (g2, sys, [.group_message_ev sys, .group_updated_ev g2])

/-- AssignAdminView.post (src/message/groups/views.py, lines 413-455). -/
def assign_admin_view (actor : Nat) (g : Group) (target : Nat) (next_id : Nat) :
    Except ApiError (Group × GroupMessage × List GroupBroadcast) :=
  if actor ≠ g.creator then
    .error (.forbidden "Only the group owner can assign admin rights")
  else if target ∉ g.members then
    .error (.badRequest "User must be a member of the group to be assigned as admin")
  else if target ∈ g.admins then .error (.badRequest "User is already an admin")
  else
    let g2 := group_save { g with admins := g.admins ++ [target] }
    let sys : GroupMessage := ⟨next_id, g.id, none,
      "System Helper: " ++ toString target ++ " was granted admin rights by " ++
        toString actor, [], false, [], none⟩
    .ok (g2, sys, [.group_message_ev sys, .group_updated_ev g2])

/-- RevokeAdminView.post (src/message/groups/views.py, lines 469-511). -/
def revoke_admin_view (actor : Nat) (g : Group) (target : Nat) (next_id : Nat) :
    Except ApiError (Group × GroupMessage × List GroupBroadcast) :=
  if actor ≠ g.creator then
    .error (.forbidden "Only the group owner can revoke admin rights")
  else if target = g.creator then
    .error (.badRequest "Cannot revoke admin rights from the group owner")
  else if target ∉ g.admins then .error (.badRequest "User is not an admin")
  else
    let g2 := group_save { g with admins := g.admins.filter (fun x => x != target) }
    let sys : GroupMessage := ⟨next_id, g.id, none,
      "System Helper: admin rights of " ++ toString target ++ " were revoked by " ++
        toString actor, [], false, [], none⟩
    .ok (g2, sys, [.group_message_ev sys, .group_updated_ev g2])

/-- The guarded admins.add used twice by TransferOwnershipView.post: the
user is added to admins only when not already in them. -/
def add_admin_if_missing (g : Group) (x : Nat) : Group :=
  if x ∈ g.admins then g else { g with admins := g.admins ++ [x] }

/-- TransferOwnershipView.post (src/message/groups/views.py, lines 525-571):
creator is reassigned, then the new owner and the old owner are each added
to admins when missing, then the row is saved and a system message plus a
group snapshot are broadcast. -/
def transfer_ownership_view (actor : Nat) (g : Group) (target : Nat) (next_id : Nat) :
    Except ApiError (Group × GroupMessage × List GroupBroadcast) :=
  if actor ≠ g.creator then
    .error (.forbidden "Only the group owner can transfer ownership")
  else if target = g.creator then
    .error (.badRequest "User is already the group owner")
  else if target ∉ g.members then
    .error (.badRequest "User must be a member of the group to become the owner")
  else
    let g4 := group_save
      (add_admin_if_missing (add_admin_if_missing { g with creator := target } target) actor)
    let sys : GroupMessage := ⟨next_id, g.id, none,
      "System Helper: Ownership transferred to " ++ toString target ++ " by " ++
        toString actor, [], false, [], none⟩
    .ok (g4, sys, [.group_message_ev sys, .group_updated_ev g4])

/-- The group a view call leaves behind: the mutated row on success, the
untouched row on error. -/
def group_after (g : Group)
    (r : Except ApiError (Group × GroupMessage × List GroupBroadcast)) : Group :=
  match r with
  | .ok (g2, _, _) => g2
  | .error _ => g

/-- One promote-to-admin or demote-from-admin request, with its acting user
and target. -/
inductive AdminOp where
  | promote (actor target : Nat)
  | demote (actor target : Nat)
deriving DecidableEq, Repr

/-- State left by one admin request: the view result on success, the
unchanged group when the view rejected it. -/
def apply_admin_op (g : Group) (op : AdminOp) : Group :=
  match op with
  | .promote a t => group_after g (assign_admin_view a g t 0)
  | .demote a t => group_after g (revoke_admin_view a g t 0)

/-- Frames the groups-app consumer emits from receive: an error frame to the
originating socket, or a broadcast to the group channel. -/
inductive GroupSend where
  | errorFrame (text : String)
  | broadcast (ev : GroupBroadcast)
deriving DecidableEq, Repr

/-- GroupChatConsumer.has_edit_delete_permission
(src/message/groups/consumers.py, lines 113-124). -/
def has_edit_delete_permission (g : Group) (u : Nat) (m : GroupMessage) : Bool :=
  let is_admin := g.admins.contains u
  let is_creator := g.creator == u
  let is_sender := match m.sender with
    | some s => s == u
    | none => false
  is_sender || is_admin || is_creator

/-- The pin_message branch of the groups-app receive
(src/message/groups/consumers.py, lines 294-328): admin-or-creator gate,
then the message of this group is flagged pinned, saved and republished. -/
def pin_message_branch (u : Nat) (g : Group) (store : List GroupMessage)
    (message_id : Nat) : List GroupMessage × List GroupSend :=
  if u ∈ g.admins ∨ u = g.creator then
    match store.find? (fun m => m.id == message_id && m.group_id == g.id) with
    | none => (store, [.errorFrame "Message not found"])
    | some m =>
      (store.map (fun x =>
          if x.id == message_id && x.group_id == g.id then { x with is_pinned := true }
          else x),
        [.broadcast (.group_message_ev { m with is_pinned := true })])
  else (store, [.errorFrame "Only admins or creator can pin messages"])

/-- The unpin_message branch of the groups-app receive
(src/message/groups/consumers.py, lines 330-364). -/
def unpin_message_branch (u : Nat) (g : Group) (store : List GroupMessage)
    (message_id : Nat) : List GroupMessage × List GroupSend :=
  if u ∈ g.admins ∨ u = g.creator then
    match store.find? (fun m => m.id == message_id && m.group_id == g.id) with
    | none => (store, [.errorFrame "Message not found"])
    | some m =>
      (store.map (fun x =>
          if x.id == message_id && x.group_id == g.id then { x with is_pinned := false }
          else x),
        [.broadcast (.group_message_ev { m with is_pinned := false })])
  else (store, [.errorFrame "Only admins or creator can unpin messages"])

/-- The delete_message branch of the groups-app receive
(src/message/groups/consumers.py, lines 233-292): lookup, permission gate,
then GroupMessage.delete, which is the stock Django row deletion (the model
overrides nothing), then a group_message_deleted broadcast. -/
def delete_message_branch (u : Nat) (g : Group) (store : List GroupMessage)
    (message_id : Nat) : List GroupMessage × List GroupSend :=
  match store.find? (fun m => m.id == message_id && m.group_id == g.id) with
  | none => (store, [.errorFrame "Message not found"])
  | some m =>
    if has_edit_delete_permission g u m then
      (store.filter (fun x => x.id != message_id),
        [.broadcast (.group_message_deleted_ev message_id)])
    else (store, [.errorFrame "You are not authorized to delete this message"])

/-- DeleteGroupMessageView.delete (src/message/groups/views.py,
lines 268-290): same permission rule, message.delete() removes the row. -/
def delete_group_message_view (actor : Nat) (g : Group) (store : List GroupMessage)
    (message_id : Nat) :
    Except ApiError (List GroupMessage × List GroupBroadcast) :=
  match store.find? (fun m => m.id == message_id && m.group_id == g.id) with
  | none => .error (.notFound "Message not found")
  | some m =>
    if m.sender ≠ some actor ∧ ¬ (actor ∈ g.admins ∨ actor = g.creator) then
      .error (.forbidden "You are not authorized to delete this message")
    else
      .ok (store.filter (fun x => x.id != message_id),
        [.group_message_deleted_ev message_id])

/-- The python dict assignment reactions[str(user.id)] = reaction: an
existing key is overwritten in place, a new key is appended. -/
def set_reaction (rs : List (Nat × String)) (u : Nat) (r : String) :
    List (Nat × String) :=
  if rs.any (fun p => p.1 == u) then
    rs.map (fun p => if p.1 == u then (u, r) else p)
  else rs ++ [(u, r)]

/-- The reaction branch of the groups-app receive
(src/message/groups/consumers.py, lines 366-393): the message is looked up
by id alone, the mapping entry of the acting user is set, the row saved and
the updated message republished. -/
def reaction_branch (u : Nat) (store : List GroupMessage) (message_id : Nat)
    (reaction : String) : List GroupMessage × List GroupSend :=
  match store.find? (fun m => m.id == message_id) with
  | none => (store, [.errorFrame "Message not found"])
  | some m =>
    (store.map (fun x =>
        if x.id == message_id then
          { x with reactions := set_reaction x.reactions u reaction }
        else x),
      [.broadcast (.group_message_ev
        { m with reactions := set_reaction m.reactions u reaction })])

/-- data.get with a default: the frame value when the key is present,
otherwise the group id bound at connect time. -/
def resolve_group_id (frame_gid : Option Nat) (self_gid : Option Nat) : Option Nat :=
  match frame_gid with
  | some gid => some gid
  | none => self_gid

/-- Result of one groups-app receive call. -/
structure GroupFrameResult where
  store : List GroupMessage
  sent : List GroupSend
deriving DecidableEq, Repr

/-- The group_message branch of the groups-app receive together with its
prelude (src/message/groups/consumers.py, lines 126-187): the group id is
taken from the frame with the connect-time id as fallback, the group row is
loaded, the channel name checked, and the message is created with the acting
user in read_by and broadcast, followed by a group snapshot; no membership
check of the acting user in the target group is performed. -/
def group_message_receive (u : Nat) (self_gid : Option Nat) (frame_gid : Option Nat)
    (groups : List Group) (store : List GroupMessage) (next_id : Nat)
    (message : String) (parent_id : Option Nat) : GroupFrameResult :=
  match resolve_group_id frame_gid self_gid with
  | none => ⟨store, [.errorFrame "No group_id provided"]⟩
  | some gid =>
    match groups.find? (fun g => g.id == gid) with
    | none =>
      ⟨store, [.errorFrame "Failed to process text data: Group matching query does not exist."]⟩
    | some g =>
      if is_valid_group_name ("group_" ++ toString gid) then
        if message.isEmpty then ⟨store, []⟩
        else
          match parent_id with
          | some pid =>
            if store.any (fun m => m.id == pid && m.group_id == gid) then
              ⟨store ++ [⟨next_id, gid, some u, message, [], false, [u], some pid⟩],
                [.broadcast (.group_message_ev
                    ⟨next_id, gid, some u, message, [], false, [u], some pid⟩),
                 .broadcast (.group_updated_ev g)]⟩
            else ⟨store, [.errorFrame "Parent message not found"]⟩
          | none =>
            ⟨store ++ [⟨next_id, gid, some u, message, [], false, [u], none⟩],
              [.broadcast (.group_message_ev
                  ⟨next_id, gid, some u, message, [], false, [u], none⟩),
               .broadcast (.group_updated_ev g)]⟩
      else ⟨store, [.errorFrame "Invalid group channel name"]⟩

/-- A persisted row of chat.models.ChatMessage (the model with the tombstone
delete), reduced to the fields delete touches or the claims read. -/
structure ChatMessage where
  id : Nat
  chat : Nat
  sender : Nat
  content : String
  message_type : String
  is_deleted : Bool
deriving DecidableEq, Repr

/-- ChatMessage.delete (src/message/chat/models.py, lines 167-170): the row
is kept, the deleted flag set and the body replaced by the tombstone. -/
def chat_message_delete (m : ChatMessage) : ChatMessage :=
  { m with is_deleted := true, content := "[Message Deleted]" }

/-- The effect of ChatMessage.delete on the message table: the row with this
id is updated in place, nothing is removed. -/
def chat_store_delete (store : List ChatMessage) (mid : Nat) : List ChatMessage :=
  store.map (fun m => if m.id == mid then chat_message_delete m else m)

/-- Helper: mapping an update over a table applies the update to the row
find? locates, provided the update preserves the predicate on rows it
applies to. -/
theorem find_map_ite {α : Type} (l : List α) (p : α → Bool) (f : α → α)
    (hf : ∀ x, p x = true → p (f x) = true) :
    (l.map (fun x => if p x then f x else x)).find? p = (l.find? p).map f := by
  induction l with
  | nil => rfl
  | cons a l ih =>
    by_cases ha : p a = true
    · rw [List.map_cons, if_pos ha, List.find?_cons_of_pos _ (hf a ha),
        List.find?_cons_of_pos _ ha, Option.map_some']
    · rw [List.map_cons, if_neg ha, List.find?_cons_of_neg _ ha,
        List.find?_cons_of_neg _ ha, ih]

/-- Helper: Group.save never changes the creator column. -/
theorem group_save_creator (g : Group) : (group_save g).creator = g.creator := by
  unfold group_save
  by_cases h : g.creator ∈ g.admins
  · rw [if_pos h]
  · rw [if_neg h]

/-- Helper: Group.save keeps every existing admin. -/
theorem group_save_admins_mem (g : Group) (x : Nat) (h : x ∈ g.admins) :
    x ∈ (group_save g).admins := by
  unfold group_save
  by_cases hc : g.creator ∈ g.admins
  · rw [if_pos hc]; exact h
  · rw [if_neg hc]; exact List.mem_append_left _ h

/-- Helper: after Group.save the creator is an admin. -/
theorem group_save_creator_mem (g : Group) : g.creator ∈ (group_save g).admins := by
  unfold group_save
  by_cases hc : g.creator ∈ g.admins
  · rw [if_pos hc]; exact hc
  · rw [if_neg hc]; exact List.mem_append_right _ (by simp)

/-- Helper: the guarded admins.add never changes the creator column. -/
theorem add_admin_if_missing_creator (g : Group) (x : Nat) :
    (add_admin_if_missing g x).creator = g.creator := by
  unfold add_admin_if_missing
  by_cases h : x ∈ g.admins
  · rw [if_pos h]
  · rw [if_neg h]

/-- Helper: the guarded admins.add puts its argument among the admins. -/
theorem add_admin_if_missing_mem_self (g : Group) (x : Nat) :
    x ∈ (add_admin_if_missing g x).admins := by
  unfold add_admin_if_missing
  by_cases h : x ∈ g.admins
  · rw [if_pos h]; exact h
  · rw [if_neg h]; exact List.mem_append_right _ (by simp)

/-- Helper: the guarded admins.add keeps every existing admin. -/
theorem add_admin_if_missing_mem_mono (g : Group) (x y : Nat) (h : y ∈ g.admins) :
    y ∈ (add_admin_if_missing g x).admins := by
  unfold add_admin_if_missing
  by_cases hx : x ∈ g.admins
  · rw [if_pos hx]; exact h
  · rw [if_neg hx]; exact List.mem_append_left _ h

/-- Helper: one promote request keeps the creator column and keeps the
creator among the admins. -/
theorem assign_admin_inv (a t n : Nat) (g : Group) (h : g.creator ∈ g.admins) :
    (group_after g (assign_admin_view a g t n)).creator ∈
      (group_after g (assign_admin_view a g t n)).admins ∧
    (group_after g (assign_admin_view a g t n)).creator = g.creator := by
  unfold assign_admin_view group_after
  by_cases h1 : a ≠ g.creator
  · rw [if_pos h1]; exact ⟨h, rfl⟩
  · rw [if_neg h1]
    by_cases h2 : t ∉ g.members
    · rw [if_pos h2]; exact ⟨h, rfl⟩
    · rw [if_neg h2]
      by_cases h3 : t ∈ g.admins
      · rw [if_pos h3]; exact ⟨h, rfl⟩
      · rw [if_neg h3]
        refine ⟨?_, group_save_creator _⟩
        rw [group_save_creator]
        exact group_save_admins_mem _ _ (List.mem_append_left _ h)

/-- Helper: one demote request keeps the creator column and keeps the
creator among the admins. -/
theorem revoke_admin_inv (a t n : Nat) (g : Group) (h : g.creator ∈ g.admins) :
    (group_after g (revoke_admin_view a g t n)).creator ∈
      (group_after g (revoke_admin_view a g t n)).admins ∧
    (group_after g (revoke_admin_view a g t n)).creator = g.creator := by
  unfold revoke_admin_view group_after
  by_cases h1 : a ≠ g.creator
  · rw [if_pos h1]; exact ⟨h, rfl⟩
  · rw [if_neg h1]
    by_cases h2 : t = g.creator
    · rw [if_pos h2]; exact ⟨h, rfl⟩
    · rw [if_neg h2]
      by_cases h3 : t ∉ g.admins
      · rw [if_pos h3]; exact ⟨h, rfl⟩
      · rw [if_neg h3]
        refine ⟨?_, group_save_creator _⟩
        rw [group_save_creator]
        apply group_save_admins_mem
        rw [List.mem_filter]
        refine ⟨h, ?_⟩
        simp only [bne_iff_ne]
        exact fun e => h2 e.symm

/-- Helper: any sequence of promote and demote requests keeps the creator
among the admins. -/
theorem admin_ops_preserve (ops : List AdminOp) :
    ∀ g : Group, g.creator ∈ g.admins →
      (ops.foldl apply_admin_op g).creator ∈ (ops.foldl apply_admin_op g).admins := by
  induction ops with
  | nil => intro g h; exact h
  | cons op ops ih =>
    intro g h
    rw [List.foldl_cons]
    apply ih
    cases op with
    | promote a t => exact (assign_admin_inv a t 0 g h).1
    | demote a t => exact (revoke_admin_inv a t 0 g h).1

/-- Helper: overwriting the entry of key u in a mapping whose keys are
unique and which has an entry for u leaves exactly the one entry (u, r). -/
theorem filter_map_overwrite (l : List (Nat × String)) (u : Nat) (r : String)
    (hnd : (l.map Prod.fst).Nodup) (ha : l.any (fun p => p.1 == u) = true) :
    (l.map (fun p => if p.1 == u then (u, r) else p)).filter (fun p => p.1 == u) =
      [(u, r)] := by
  induction l with
  | nil => simp at ha
  | cons a l ih =>
    rw [List.map_cons] at hnd
    have hnd2 := List.nodup_cons.mp hnd
    by_cases h1 : a.1 = u
    · rw [List.map_cons, if_pos (by simp [h1])]
      rw [List.filter_cons_of_pos (by simp)]
      have hrest : (l.map (fun p => if p.1 == u then (u, r) else p)).filter
          (fun p => p.1 == u) = [] := by
        rw [List.filter_eq_nil_iff]
        intro q hq
        rcases List.mem_map.mp hq with ⟨p, hp, hpq⟩
        have hne : p.1 ≠ u := by
          intro he
          exact hnd2.1 (by rw [← h1] at he; exact he ▸ List.mem_map_of_mem Prod.fst hp)
        rw [if_neg (by simp [hne])] at hpq
        subst hpq
        simp [hne]
      rw [hrest]
    · rw [List.map_cons, if_neg (by simp [h1])]
      rw [List.filter_cons_of_neg (by simp [h1])]
      have ha2 : l.any (fun p => p.1 == u) = true := by
        rcases List.any_eq_true.mp ha with ⟨p, hp, hpu⟩
        rcases List.mem_cons.mp hp with he | hm
        · subst he; simp at hpu; exact absurd hpu h1
        · exact List.any_eq_true.mpr ⟨p, hm, hpu⟩
      exact ih hnd2.2 ha2

/-- Helper: the dict assignment leaves exactly one entry for the acting
user, carrying the new reaction, when the mapping keys are unique. -/
theorem set_reaction_filter (rs : List (Nat × String)) (u : Nat) (r : String)
    (h : (rs.map Prod.fst).Nodup) :
    (set_reaction rs u r).filter (fun p => p.1 == u) = [(u, r)] := by
  unfold set_reaction
  by_cases ha : rs.any (fun p => p.1 == u) = true
  · rw [if_pos ha]; exact filter_map_overwrite rs u r h ha
  · rw [if_neg ha, List.filter_append]
    have h1 : rs.filter (fun p => p.1 == u) = [] := by
      rw [List.filter_eq_nil_iff]
      intro p hp
      have := List.any_eq_false.mp (Bool.not_eq_true _ ▸ ha : rs.any _ = false) p hp
      simpa using this
    rw [h1]
    simp

/-- Helper: the dict assignment keeps the mapping keys unique. -/
theorem set_reaction_nodup (rs : List (Nat × String)) (u : Nat) (r : String)
    (h : (rs.map Prod.fst).Nodup) :
    ((set_reaction rs u r).map Prod.fst).Nodup := by
  unfold set_reaction
  by_cases ha : rs.any (fun p => p.1 == u) = true
  · rw [if_pos ha, List.map_map]
    have : (Prod.fst ∘ fun p : Nat × String => if p.1 == u then (u, r) else p) =
        Prod.fst := by
      funext p
      by_cases hp : p.1 = u
      · simp [hp]
      · simp [hp]
    rw [this]
    exact h
  · rw [if_neg ha, List.map_append]
    rw [List.nodup_append]
    refine ⟨h, by simp, ?_⟩
    intro x hx
    simp only [List.map_cons, List.map_nil, List.mem_singleton]
    intro he
    subst he
    rcases List.mem_map.mp hx with ⟨p, hp, hpu⟩
    have := List.any_eq_false.mp (Bool.not_eq_true _ ▸ ha : rs.any _ = false) p hp
    simp [hpu] at this

/-- Helper: one reaction call on a store whose lookup finds m updates the
row to m with the new reactions mapping and republishes exactly that row. -/
theorem reaction_branch_step (store : List GroupMessage) (mid u : Nat) (r : String)
    (m : GroupMessage) (hfind : store.find? (fun x => x.id == mid) = some m) :
    (reaction_branch u store mid r).1.find? (fun x => x.id == mid) =
      some { m with reactions := set_reaction m.reactions u r } ∧
    (reaction_branch u store mid r).2 =
      [GroupSend.broadcast (.group_message_ev
        { m with reactions := set_reaction m.reactions u r })] := by
  unfold reaction_branch
  rw [hfind]
  dsimp only
  constructor
  · rw [find_map_ite store (fun x => x.id == mid)
      (fun x => { x with reactions := set_reaction x.reactions u r })
      (fun x hx => hx), hfind, Option.map_some']
  · rfl

/-- Claim C10: the direct-chat channel name is symmetric in the two user
ids: the room name computed for a connection from s to r equals the one
computed from r to s, so both peers of a pair join one and the same fan-out
channel. -/
theorem c10_room_name_symmetric (s r : Nat) :
    room_group_name s r = room_group_name r s := by
  unfold room_group_name
  rw [Nat.min_comm, Nat.max_comm]

/-- Claim C7, counterexample: in ChatConsumer.connect the close code for a
connection with no credential equals the close code for a connection whose
credential is invalid (both 1008, and an identity mismatch closes with 1008
as well), so the rejection causes do not get distinct codes. -/
theorem c7_counterexample :
    chat_connect (some (1, 2)) .missing = .close 1008 ∧
    chat_connect (some (1, 2)) .authFailed = .close 1008 ∧
    chat_connect (some (1, 2)) (.valid 5) = .close 1008 ∧
    chat_connect (some (1, 2)) .missing = chat_connect (some (1, 2)) .authFailed := by
  decide

/-- Claim C7, amended: the groups-app entry point does use distinct close
codes (4001 missing credential, 4003 invalid or expired credential, 4004 not
a member), but the direct-chat entry point closes with the single code 1008
for a missing credential, a failed authentication, and a sender-identity
mismatch alike. -/
theorem c7_amended (url : Option Nat) (groups : List Group) (gid uid : Nat)
    (s r imp : Nat)
    (hmem : ∀ g ∈ groups, g.id = gid → uid ∉ g.members)
    (himp : imp ≠ s) :
    groups_connect .missing url groups = .close 4001 ∧
    groups_connect .tokenError url groups = .close 4003 ∧
    groups_connect (.valid uid true) (some gid) groups = .close 4004 ∧
    ((4001 : Nat) ≠ 4003 ∧ (4001 : Nat) ≠ 4004 ∧ (4003 : Nat) ≠ 4004) ∧
    chat_connect (some (s, r)) .missing = .close 1008 ∧
    chat_connect (some (s, r)) .authFailed = .close 1008 ∧
    chat_connect (some (s, r)) (.valid imp) = .close 1008 := by
  refine ⟨rfl, rfl, ?_, by decide, rfl, rfl, ?_⟩
  · have hany : groups.any (fun g => g.id == gid && g.members.contains uid) = false := by
      rw [List.any_eq_false]
      intro g hg
      simp only [Bool.and_eq_true, beq_iff_eq, not_and]
      intro hid hcon
      exact hmem g hg hid (List.elem_iff.mp hcon)
    simp only [groups_connect, hany, Bool.not_true, Bool.false_eq_true, if_false]
  · simp [chat_connect, himp]

/-- Claim C7, witness for the amended theorem at a concrete input. -/
theorem c7_amended_witness :
    ((∀ g ∈ [Group.mk 9 "g" 1 [1] [1, 3]], g.id = 9 → 2 ∉ g.members) ∧ (7 : Nat) ≠ 1) ∧
    (groups_connect .missing none [Group.mk 9 "g" 1 [1] [1, 3]] = .close 4001 ∧
     groups_connect .tokenError none [Group.mk 9 "g" 1 [1] [1, 3]] = .close 4003 ∧
     groups_connect (.valid 2 true) (some 9) [Group.mk 9 "g" 1 [1] [1, 3]] = .close 4004 ∧
     ((4001 : Nat) ≠ 4003 ∧ (4001 : Nat) ≠ 4004 ∧ (4003 : Nat) ≠ 4004) ∧
     chat_connect (some (1, 2)) .missing = .close 1008 ∧
     chat_connect (some (1, 2)) .authFailed = .close 1008 ∧
     chat_connect (some (1, 2)) (.valid 7) = .close 1008) :=
  ⟨⟨by decide, by decide⟩,
    c7_amended none [Group.mk 9 "g" 1 [1] [1, 3]] 9 2 1 2 7 (by decide) (by decide)⟩

/-- Claim C1, counterexample: resubmitting the very same create frame is not
a silent drop: the second receive call answers the client with the error
frame carrying the ValueError text raised by save_encrypted_message. -/
theorem c1_counterexample :
    (chat_receive_message [1, 2] 1 2
      (chat_receive_message [1, 2] 1 2 [] c1_frame).store c1_frame).sent =
      [ChatSend.errorFrame "message_id must be unique"] := by decide

/-- Claim C1, amended: submitting the same create frame twice yields exactly
one persisted message and exactly one broadcast (the duplicate is neither
persisted nor rebroadcast), but the duplicate is answered with an error
frame on the originating connection instead of being silently dropped. -/
theorem c1_amended (users : List Nat) (s r : Nat) (store : List Message)
    (f : ChatFrame)
    (hmsg : f.message.isEmpty = false) (hid : is_blank f.message_id = false)
    (hrecv : r ∈ users)
    (hfresh : store.any (fun m => m.message_id == f.message_id.getD "") = false) :
    (chat_receive_message users s r store f).store =
      store ++ [⟨f.message_id.getD "", s, some r, f.message, f.nonce.getD "",
        f.ephemeral_key.getD "", f.message_key.getD "", f.ftype.getD "text"⟩] ∧
    (chat_receive_message users s r store f).sent =
      [ChatSend.broadcast ⟨f.message, f.nonce, f.ephemeral_key, f.message_key, s, r,
        f.ftype.getD "text", f.message_id.getD "", f.timestamp⟩] ∧
    (chat_receive_message users s r
        (chat_receive_message users s r store f).store f).store =
      (chat_receive_message users s r store f).store ∧
    (chat_receive_message users s r
        (chat_receive_message users s r store f).store f).sent =
      [ChatSend.errorFrame "message_id must be unique"] ∧
    ((chat_receive_message users s r
        (chat_receive_message users s r store f).store f).store.filter
      (fun m => m.message_id == f.message_id.getD "")).length = 1 := by
  have h1 : chat_receive_message users s r store f =
      ⟨store ++ [⟨f.message_id.getD "", s, some r, f.message, f.nonce.getD "",
        f.ephemeral_key.getD "", f.message_key.getD "", f.ftype.getD "text"⟩],
       [ChatSend.broadcast ⟨f.message, f.nonce, f.ephemeral_key, f.message_key, s, r,
        f.ftype.getD "text", f.message_id.getD "", f.timestamp⟩]⟩ := by
    unfold chat_receive_message save_encrypted_message
    simp [hmsg, hid, hrecv, hfresh]
  have h2 : chat_receive_message users s r
      (chat_receive_message users s r store f).store f =
      ⟨(chat_receive_message users s r store f).store,
       [ChatSend.errorFrame "message_id must be unique"]⟩ := by
    rw [h1]
    unfold chat_receive_message save_encrypted_message
    simp [hmsg, hid, hrecv, List.any_append]
  have hnil : store.filter (fun m => m.message_id == f.message_id.getD "") = [] := by
    rw [List.filter_eq_nil_iff]
    intro m hm
    have := List.any_eq_false.mp hfresh m hm
    simpa using this
  refine ⟨by rw [h1], by rw [h1], by rw [h2], by rw [h2], ?_⟩
  rw [h2, h1]
  simp [List.filter_append, hnil]

/-- Claim C1, witness for the amended theorem at a concrete input. -/
theorem c1_amended_witness :
    (("hello" : String).isEmpty = false ∧ is_blank (some "c1") = false ∧
      2 ∈ [1, 2] ∧
      ([] : List Message).any (fun m => m.message_id == "c1") = false) ∧
    ((chat_receive_message [1, 2] 1 2 [] c1_frame).store =
      [] ++ [⟨"c1", 1, some 2, "hello", "", "", "", "text"⟩] ∧
     (chat_receive_message [1, 2] 1 2 [] c1_frame).sent =
      [ChatSend.broadcast ⟨"hello", none, none, none, 1, 2, "text", "c1", none⟩] ∧
     (chat_receive_message [1, 2] 1 2
        (chat_receive_message [1, 2] 1 2 [] c1_frame).store c1_frame).store =
      (chat_receive_message [1, 2] 1 2 [] c1_frame).store ∧
     (chat_receive_message [1, 2] 1 2
        (chat_receive_message [1, 2] 1 2 [] c1_frame).store c1_frame).sent =
      [ChatSend.errorFrame "message_id must be unique"] ∧
     ((chat_receive_message [1, 2] 1 2
        (chat_receive_message [1, 2] 1 2 [] c1_frame).store c1_frame).store.filter
       (fun m => m.message_id == "c1")).length = 1) :=
  ⟨⟨by decide, by decide, by decide, by decide⟩,
    c1_amended [1, 2] 1 2 [] c1_frame (by decide) (by decide) (by decide) (by decide)⟩

/-- Claim C9: a create-message frame whose body is empty or whose client
message id is absent is answered with a validation error frame on the
originating connection and nothing is persisted or broadcast; this holds for
the direct consumer and for the group consumer of the chat file alike. -/
theorem c9_create_validation (users : List Nat) (s r g : Nat)
    (store : List Message) (f : ChatFrame)
    (h : f.message.isEmpty = true ∨ is_blank f.message_id = true) :
    ((chat_receive_message users s r store f).store = store ∧
     (∀ ev, ChatSend.broadcast ev ∉ (chat_receive_message users s r store f).sent) ∧
     ((chat_receive_message users s r store f).sent =
        [ChatSend.errorFrame "Message cannot be empty"] ∨
      (chat_receive_message users s r store f).sent =
        [ChatSend.errorFrame "message_id is required"])) ∧
    ((group_chat_receive_message s g store f).store = store ∧
     (∀ ev, GroupChatSend.broadcast ev ∉ (group_chat_receive_message s g store f).sent) ∧
     ((group_chat_receive_message s g store f).sent =
        [GroupChatSend.errorFrame "Message cannot be empty"] ∨
      (group_chat_receive_message s g store f).sent =
        [GroupChatSend.errorFrame "message_id is required"])) := by
  by_cases hm : f.message.isEmpty = true
  · have e1 : chat_receive_message users s r store f =
        ⟨store, [ChatSend.errorFrame "Message cannot be empty"]⟩ := by
      unfold chat_receive_message
      simp [hm]
    have e2 : group_chat_receive_message s g store f =
        ⟨store, [GroupChatSend.errorFrame "Message cannot be empty"]⟩ := by
      unfold group_chat_receive_message
      simp [hm]
    rw [e1, e2]
    refine ⟨⟨rfl, ?_, Or.inl rfl⟩, rfl, ?_, Or.inl rfl⟩ <;> intro ev <;> simp
  · have hid : is_blank f.message_id = true := h.resolve_left hm
    have hm2 : f.message.isEmpty = false := by
      cases hcase : f.message.isEmpty with
      | true => exact absurd hcase hm
      | false => rfl
    have e1 : chat_receive_message users s r store f =
        ⟨store, [ChatSend.errorFrame "message_id is required"]⟩ := by
      unfold chat_receive_message
      simp [hm2, hid]
    have e2 : group_chat_receive_message s g store f =
        ⟨store, [GroupChatSend.errorFrame "message_id is required"]⟩ := by
      unfold group_chat_receive_message
      simp [hm2, hid]
    rw [e1, e2]
    refine ⟨⟨rfl, ?_, Or.inr rfl⟩, rfl, ?_, Or.inr rfl⟩ <;> intro ev <;> simp

/-- Claim C9, witness at a concrete input: an empty body with a client id
present. -/
theorem c9_witness :
    (("" : String).isEmpty = true ∨ is_blank (some "c9") = true) ∧
    (((chat_receive_message [1, 2] 1 2 []
        ⟨"", none, none, none, none, some "c9", none⟩).store = [] ∧
      (∀ ev, ChatSend.broadcast ev ∉ (chat_receive_message [1, 2] 1 2 []
        ⟨"", none, none, none, none, some "c9", none⟩).sent) ∧
      ((chat_receive_message [1, 2] 1 2 []
          ⟨"", none, none, none, none, some "c9", none⟩).sent =
         [ChatSend.errorFrame "Message cannot be empty"] ∨
       (chat_receive_message [1, 2] 1 2 []
          ⟨"", none, none, none, none, some "c9", none⟩).sent =
         [ChatSend.errorFrame "message_id is required"])) ∧
     ((group_chat_receive_message 1 3 []
        ⟨"", none, none, none, none, some "c9", none⟩).store = [] ∧
      (∀ ev, GroupChatSend.broadcast ev ∉ (group_chat_receive_message 1 3 []
        ⟨"", none, none, none, none, some "c9", none⟩).sent) ∧
      ((group_chat_receive_message 1 3 []
          ⟨"", none, none, none, none, some "c9", none⟩).sent =
         [GroupChatSend.errorFrame "Message cannot be empty"] ∨
       (group_chat_receive_message 1 3 []
          ⟨"", none, none, none, none, some "c9", none⟩).sent =
         [GroupChatSend.errorFrame "message_id is required"]))) :=
  ⟨Or.inl (by decide),
    c9_create_validation [1, 2] 1 2 3 []
      ⟨"", none, none, none, none, some "c9", none⟩ (Or.inl (by decide))⟩

/-- Claim C2, counterexample: a group message deleted through the consumer
delete_message branch is physically removed, so the store no longer returns
a record for its id (here message 5 of group 1, deleted by its sender 2). -/
theorem c2_counterexample :
    ((delete_message_branch 2 (Group.mk 1 "g" 1 [1] [1, 2])
        [GroupMessage.mk 5 1 (some 2) "hi" [] false [] none] 5).1.find?
      (fun m => m.id == 5)) = none := by decide

/-- Claim C2, amended: for direct-chat messages, ChatMessage.delete is a
tombstone: the store still returns a record with the same id and chat,
deleted true and the body replaced by the deletion marker; group messages,
in contrast, are physically removed by both delete paths. -/
theorem c2_amended (store : List ChatMessage) (m : ChatMessage)
    (hm : store.find? (fun x => x.id == m.id) = some m) :
    (chat_store_delete store m.id).find? (fun x => x.id == m.id) =
      some ⟨m.id, m.chat, m.sender, "[Message Deleted]", m.message_type, true⟩ ∧
    (∀ (g : Group) (gstore : List GroupMessage) (gm : GroupMessage) (u : Nat),
      gstore.find? (fun x => x.id == gm.id && x.group_id == g.id) = some gm →
      has_edit_delete_permission g u gm = true →
      (delete_message_branch u g gstore gm.id).1.find? (fun x => x.id == gm.id) = none) ∧
    (∀ (g : Group) (gstore : List GroupMessage) (gm : GroupMessage) (u : Nat),
      gstore.find? (fun x => x.id == gm.id && x.group_id == g.id) = some gm →
      (gm.sender = some u ∨ u ∈ g.admins ∨ u = g.creator) →
      ∃ rest evs, delete_group_message_view u g gstore gm.id = .ok (rest, evs) ∧
        rest.find? (fun x => x.id == gm.id) = none) := by
  refine ⟨?_, ?_, ?_⟩
  · rw [chat_store_delete, find_map_ite store (fun x => x.id == m.id)
      chat_message_delete (fun x hx => hx), hm, Option.map_some']
    rfl
  · intro g gstore gm u hfind hperm
    unfold delete_message_branch
    rw [hfind]
    dsimp only
    rw [if_pos hperm]
    rw [List.find?_eq_none]
    intro x hx
    have h2 := (List.mem_filter.mp hx).2
    simp only [bne_iff_ne, ne_eq] at h2
    simp [h2]
  · intro g gstore gm u hfind hperm
    unfold delete_group_message_view
    rw [hfind]
    dsimp only
    have hcond : ¬ (gm.sender ≠ some u ∧ ¬ (u ∈ g.admins ∨ u = g.creator)) := by
      rcases hperm with h | h | h
      · intro hc; exact hc.1 h
      · intro hc; exact hc.2 (Or.inl h)
      · intro hc; exact hc.2 (Or.inr h)
    rw [if_neg hcond]
    refine ⟨_, _, rfl, ?_⟩
    rw [List.find?_eq_none]
    intro x hx
    have h2 := (List.mem_filter.mp hx).2
    simp only [bne_iff_ne, ne_eq] at h2
    simp [h2]

/-- Claim C2, witness for the amended theorem at a concrete input. -/
theorem c2_amended_witness :
    ([ChatMessage.mk 4 9 1 "hey" "text" false].find? (fun x => x.id == 4) =
      some (ChatMessage.mk 4 9 1 "hey" "text" false)) ∧
    ((chat_store_delete [ChatMessage.mk 4 9 1 "hey" "text" false] 4).find?
        (fun x => x.id == 4) =
      some ⟨4, 9, 1, "[Message Deleted]", "text", true⟩ ∧
    (∀ (g : Group) (gstore : List GroupMessage) (gm : GroupMessage) (u : Nat),
      gstore.find? (fun x => x.id == gm.id && x.group_id == g.id) = some gm →
      has_edit_delete_permission g u gm = true →
      (delete_message_branch u g gstore gm.id).1.find? (fun x => x.id == gm.id) = none) ∧
    (∀ (g : Group) (gstore : List GroupMessage) (gm : GroupMessage) (u : Nat),
      gstore.find? (fun x => x.id == gm.id && x.group_id == g.id) = some gm →
      (gm.sender = some u ∨ u ∈ g.admins ∨ u = g.creator) →
      ∃ rest evs, delete_group_message_view u g gstore gm.id = .ok (rest, evs) ∧
        rest.find? (fun x => x.id == gm.id) = none)) :=
  ⟨by decide,
    c2_amended [ChatMessage.mk 4 9 1 "hey" "text" false]
      (ChatMessage.mk 4 9 1 "hey" "text" false) (by decide)⟩

/-- Claim C3: a user who is neither an admin nor the owner of a group gets
an authorization error from add member, remove member, pin and unpin, and
none of them changes the group row or the message store. -/
theorem c3_authorization (g : Group) (u t nid mid : Nat) (store : List GroupMessage)
    (hadm : u ∉ g.admins) (hown : u ≠ g.creator) :
    add_member_view u g t nid = .error (.forbidden "Only admins can add members") ∧
    group_after g (add_member_view u g t nid) = g ∧
    remove_member_view u g t nid =
      .error (.forbidden "Only admins can remove members") ∧
    group_after g (remove_member_view u g t nid) = g ∧
    pin_message_branch u g store mid =
      (store, [.errorFrame "Only admins or creator can pin messages"]) ∧
    unpin_message_branch u g store mid =
      (store, [.errorFrame "Only admins or creator can unpin messages"]) := by
  have hno : ¬ (u ∈ g.admins ∨ u = g.creator) := by
    rintro (h | h)
    · exact hadm h
    · exact hown h
  have hadd : add_member_view u g t nid =
      .error (.forbidden "Only admins can add members") := by
    unfold add_member_view
    rw [if_pos hadm]
  have hrem : remove_member_view u g t nid =
      .error (.forbidden "Only admins can remove members") := by
    unfold remove_member_view
    rw [if_pos hadm]
  have hpin : pin_message_branch u g store mid =
      (store, [.errorFrame "Only admins or creator can pin messages"]) := by
    unfold pin_message_branch
    rw [if_neg hno]
  have hunpin : unpin_message_branch u g store mid =
      (store, [.errorFrame "Only admins or creator can unpin messages"]) := by
    unfold unpin_message_branch
    rw [if_neg hno]
  exact ⟨hadd, by rw [hadd]; rfl, hrem, by rw [hrem]; rfl, hpin, hunpin⟩

/-- Claim C3, witness at a concrete input: user 2 in a group owned and
administered by user 1 alone. -/
theorem c3_witness :
    (2 ∉ (Group.mk 1 "g" 1 [1] [1, 2, 3]).admins ∧
      2 ≠ (Group.mk 1 "g" 1 [1] [1, 2, 3]).creator) ∧
    (add_member_view 2 (Group.mk 1 "g" 1 [1] [1, 2, 3]) 4 0 =
      .error (.forbidden "Only admins can add members") ∧
    group_after (Group.mk 1 "g" 1 [1] [1, 2, 3])
      (add_member_view 2 (Group.mk 1 "g" 1 [1] [1, 2, 3]) 4 0) =
      Group.mk 1 "g" 1 [1] [1, 2, 3] ∧
    remove_member_view 2 (Group.mk 1 "g" 1 [1] [1, 2, 3]) 4 0 =
      .error (.forbidden "Only admins can remove members") ∧
    group_after (Group.mk 1 "g" 1 [1] [1, 2, 3])
      (remove_member_view 2 (Group.mk 1 "g" 1 [1] [1, 2, 3]) 4 0) =
      Group.mk 1 "g" 1 [1] [1, 2, 3] ∧
    pin_message_branch 2 (Group.mk 1 "g" 1 [1] [1, 2, 3])
      [GroupMessage.mk 7 1 (some 3) "m" [] false [] none] 7 =
      ([GroupMessage.mk 7 1 (some 3) "m" [] false [] none],
        [.errorFrame "Only admins or creator can pin messages"]) ∧
    unpin_message_branch 2 (Group.mk 1 "g" 1 [1] [1, 2, 3])
      [GroupMessage.mk 7 1 (some 3) "m" [] false [] none] 7 =
      ([GroupMessage.mk 7 1 (some 3) "m" [] false [] none],
        [.errorFrame "Only admins or creator can unpin messages"])) :=
  ⟨⟨by decide, by decide⟩,
    c3_authorization (Group.mk 1 "g" 1 [1] [1, 2, 3]) 2 4 0 7
      [GroupMessage.mk 7 1 (some 3) "m" [] false [] none] (by decide) (by decide)⟩

/-- Claim C4: a group_message frame naming an existing group is persisted
and broadcast to that channel even when the acting user is not a member of
the group; the receive handler resolves group_id from the frame and never
re-checks membership. -/
theorem c4_no_membership_recheck (u : Nat) (g : Group) (self_gid : Option Nat)
    (groups : List Group) (store : List GroupMessage) (nid : Nat) (msg : String)
    (hfind : groups.find? (fun h2 => h2.id == g.id) = some g)
    (hnotmem : u ∉ g.members)
    (hmsg : msg.isEmpty = false)
    (hname : is_valid_group_name ("group_" ++ toString g.id) = true) :
    group_message_receive u self_gid (some g.id) groups store nid msg none =
      ⟨store ++ [⟨nid, g.id, some u, msg, [], false, [u], none⟩],
       [.broadcast (.group_message_ev ⟨nid, g.id, some u, msg, [], false, [u], none⟩),
        .broadcast (.group_updated_ev g)]⟩ := by
  have hmsg2 : ¬ (msg.isEmpty = true) := by rw [hmsg]; simp
  simp only [group_message_receive, resolve_group_id, hfind]
  rw [if_pos hname, if_neg hmsg2]

/-- Claim C4, witness at a concrete input: user 9 is no member of group 1
yet the frame is persisted and broadcast. -/
theorem c4_witness :
    ([Group.mk 1 "g" 1 [1] [1, 2]].find?
        (fun h2 => h2.id == (Group.mk 1 "g" 1 [1] [1, 2]).id) =
      some (Group.mk 1 "g" 1 [1] [1, 2]) ∧
     9 ∉ (Group.mk 1 "g" 1 [1] [1, 2]).members ∧
     ("hi" : String).isEmpty = false ∧
     is_valid_group_name ("group_" ++ toString (Group.mk 1 "g" 1 [1] [1, 2]).id) = true) ∧
    group_message_receive 9 none (some (Group.mk 1 "g" 1 [1] [1, 2]).id)
      [Group.mk 1 "g" 1 [1] [1, 2]] [] 3 "hi" none =
      ⟨[⟨3, 1, some 9, "hi", [], false, [9], none⟩],
       [.broadcast (.group_message_ev ⟨3, 1, some 9, "hi", [], false, [9], none⟩),
        .broadcast (.group_updated_ev (Group.mk 1 "g" 1 [1] [1, 2]))]⟩ :=
  ⟨⟨by decide, by decide, by decide, by decide⟩, by
    have h := c4_no_membership_recheck 9 (Group.mk 1 "g" 1 [1] [1, 2]) none
      [Group.mk 1 "g" 1 [1] [1, 2]] [] 3 "hi" (by decide) (by decide) (by decide)
      (by decide)
    simpa using h⟩

/-- Claim C5: after any sequence of promote and demote requests the owner is
still among the admins, a demote of the owner by the owner is rejected with
the explicit owner-protection error, and any demote targeting the owner
errors rather than being silently ignored. -/
theorem c5_owner_invariant (g : Group) (ops : List AdminOp)
    (h : g.creator ∈ g.admins) :
    (ops.foldl apply_admin_op g).creator ∈ (ops.foldl apply_admin_op g).admins ∧
    (∀ g2 : Group, revoke_admin_view g2.creator g2 g2.creator 0 =
      .error (.badRequest "Cannot revoke admin rights from the group owner")) ∧
    (∀ (g2 : Group) (a : Nat), ∃ e, revoke_admin_view a g2 g2.creator 0 = .error e) := by
  refine ⟨admin_ops_preserve ops g h, ?_, ?_⟩
  · intro g2
    unfold revoke_admin_view
    rw [if_neg (by simp), if_pos rfl]
  · intro g2 a
    by_cases h1 : a ≠ g2.creator
    · exact ⟨_, by unfold revoke_admin_view; rw [if_pos h1]⟩
    · exact ⟨_, by unfold revoke_admin_view; rw [if_neg h1, if_pos rfl]⟩

/-- Claim C5, witness at a concrete input: owner 1, one promote of 2 then a
demote of 2. -/
theorem c5_witness :
    ((Group.mk 1 "g" 1 [1] [1, 2]).creator ∈ (Group.mk 1 "g" 1 [1] [1, 2]).admins) ∧
    (([AdminOp.promote 1 2, AdminOp.demote 1 2].foldl apply_admin_op
        (Group.mk 1 "g" 1 [1] [1, 2])).creator ∈
      ([AdminOp.promote 1 2, AdminOp.demote 1 2].foldl apply_admin_op
        (Group.mk 1 "g" 1 [1] [1, 2])).admins ∧
    (∀ g2 : Group, revoke_admin_view g2.creator g2 g2.creator 0 =
      .error (.badRequest "Cannot revoke admin rights from the group owner")) ∧
    (∀ (g2 : Group) (a : Nat), ∃ e, revoke_admin_view a g2 g2.creator 0 = .error e)) :=
  ⟨by decide,
    c5_owner_invariant (Group.mk 1 "g" 1 [1] [1, 2])
      [AdminOp.promote 1 2, AdminOp.demote 1 2] (by decide)⟩

/-- Claim C6: a transfer of ownership by the owner O to a member N makes N
the owner, puts N among the admins, keeps O among the admins, and creates
and broadcasts a system message (sender none) announcing the transfer,
together with the updated group snapshot. -/
theorem c6_transfer_ownership (g : Group) (o n nid : Nat)
    (howner : g.creator = o) (hmem : n ∈ g.members) (hne : n ≠ o) :
    ∃ g4 sys evs, transfer_ownership_view o g n nid = .ok (g4, sys, evs) ∧
      g4.creator = n ∧ n ∈ g4.admins ∧ o ∈ g4.admins ∧
      sys.sender = none ∧
      sys.message = "System Helper: Ownership transferred to " ++ toString n ++
        " by " ++ toString o ∧
      evs = [.group_message_ev sys, .group_updated_ev g4] := by
  have h1 : ¬ o ≠ g.creator := by rw [howner]; simp
  have h2 : ¬ n = g.creator := by rw [howner]; exact hne
  have h3 : ¬ n ∉ g.members := by simp [hmem]
  unfold transfer_ownership_view
  rw [if_neg h1, if_neg h2, if_neg h3]
  refine ⟨_, _, _, rfl, ?_, ?_, ?_, rfl, rfl, rfl⟩
  · rw [group_save_creator, add_admin_if_missing_creator, add_admin_if_missing_creator]
  · exact group_save_admins_mem _ _
      (add_admin_if_missing_mem_mono _ _ _ (add_admin_if_missing_mem_self _ _))
  · exact group_save_admins_mem _ _ (add_admin_if_missing_mem_self _ _)

/-- Claim C6, witness at a concrete input: owner 1 transfers group 1 to
member 2. -/
theorem c6_witness :
    ((Group.mk 1 "g" 1 [1] [1, 2]).creator = 1 ∧
      2 ∈ (Group.mk 1 "g" 1 [1] [1, 2]).members ∧ (2 : Nat) ≠ 1) ∧
    (∃ g4 sys evs,
      transfer_ownership_view 1 (Group.mk 1 "g" 1 [1] [1, 2]) 2 8 = .ok (g4, sys, evs) ∧
      g4.creator = 2 ∧ 2 ∈ g4.admins ∧ 1 ∈ g4.admins ∧
      sys.sender = none ∧
      sys.message = "System Helper: Ownership transferred to " ++ toString 2 ++
        " by " ++ toString 1 ∧
      evs = [.group_message_ev sys, .group_updated_ev g4]) :=
  ⟨⟨by decide, by decide, by decide⟩,
    c6_transfer_ownership (Group.mk 1 "g" 1 [1] [1, 2]) 1 2 8 (by decide) (by decide)
      (by decide)⟩

/-- Claim C8: reacting twice as the same user overwrites: after r1 then r2
the message carries exactly one reactions entry for that user, equal to r2,
and the updated message is republished to the channel after each call. -/
theorem c8_reaction_overwrite (store : List GroupMessage) (mid u : Nat)
    (r1 r2 : String) (m : GroupMessage)
    (hfind : store.find? (fun x => x.id == mid) = some m)
    (hkeys : (m.reactions.map Prod.fst).Nodup) :
    ∃ m2,
      ((reaction_branch u (reaction_branch u store mid r1).1 mid r2).1.find?
        (fun x => x.id == mid)) = some m2 ∧
      m2.reactions.filter (fun p => p.1 == u) = [(u, r2)] ∧
      (reaction_branch u store mid r1).2 =
        [GroupSend.broadcast (.group_message_ev
          { m with reactions := set_reaction m.reactions u r1 })] ∧
      (reaction_branch u (reaction_branch u store mid r1).1 mid r2).2 =
        [GroupSend.broadcast (.group_message_ev m2)] := by
  obtain ⟨h1f, h1s⟩ := reaction_branch_step store mid u r1 m hfind
  obtain ⟨h2f, h2s⟩ := reaction_branch_step _ mid u r2 _ h1f
  exact ⟨_, h2f,
    set_reaction_filter _ u r2 (set_reaction_nodup m.reactions u r1 hkeys), h1s, h2s⟩

/-- Claim C8, witness at a concrete input: user 2 reacts a then b to
message 5. -/
theorem c8_witness :
    ([GroupMessage.mk 5 1 (some 3) "m" [] false [] none].find?
        (fun x => x.id == 5) = some (GroupMessage.mk 5 1 (some 3) "m" [] false [] none) ∧
      ((GroupMessage.mk 5 1 (some 3) "m" [] false [] none).reactions.map
        Prod.fst).Nodup) ∧
    (∃ m2,
      ((reaction_branch 2 (reaction_branch 2
          [GroupMessage.mk 5 1 (some 3) "m" [] false [] none] 5 "a").1 5 "b").1.find?
        (fun x => x.id == 5)) = some m2 ∧
      m2.reactions.filter (fun p => p.1 == 2) = [(2, "b")] ∧
      (reaction_branch 2 [GroupMessage.mk 5 1 (some 3) "m" [] false [] none] 5 "a").2 =
        [GroupSend.broadcast (.group_message_ev
          (GroupMessage.mk 5 1 (some 3) "m" [(2, "a")] false [] none))] ∧
      (reaction_branch 2 (reaction_branch 2
          [GroupMessage.mk 5 1 (some 3) "m" [] false [] none] 5 "a").1 5 "b").2 =
        [GroupSend.broadcast (.group_message_ev m2)]) :=
  ⟨⟨by decide, by decide⟩,
    c8_reaction_overwrite [GroupMessage.mk 5 1 (some 3) "m" [] false [] none] 5 2
      "a" "b" (GroupMessage.mk 5 1 (some 3) "m" [] false [] none) (by decide)
      (by decide)⟩

end Backend
